import Mathlib

/-!
Shallow embedding of `src/bin/toshi.rs` (the Toshi node-lifecycle
orchestrator binary).

Each Rust function is translated to a Lean function from an oracle of
external-call outcomes (`Env`) to the ordered list of observable events it
performs (`List Event`) together with the resolution of the future it
builds (`FOutcome`).  The futures-0.1 combinator semantics is embedded
directly:

* `a.and_then(f)` runs `f` only when `a` resolves `Ok`; an `Err` (or a
  panic from `expect`/`unwrap`) propagates and the continuation's events
  never happen;
* `map_err(|e| error!(..))` logs and *transforms* the error value — the
  future still resolves as an error;
* `server.select(shutdown)` resolves with whichever side finishes first;
  the spawned task then ends and the loser — including the oneshot
  `Sender` held by the shutdown future — is dropped;
* dropping the `Sender` without sending makes the `Receiver` resolve with
  `Canceled`, which `main` maps to an `unreachable!` panic.

Network and filesystem effects (`register_cluster`, `Consul::builder`,
`IndexCatalog::new`, …) are external calls; their success or failure is an
input (`Env`), and issuing the call is an event in the trace.  The
in-memory filesystem used for the bootstrap directory step is the list of
existing paths.  `cluster::init_node_id` is not part of the repository
files given under src/, so it is modelled from the spec (see
`init_node_id`).
-/

namespace Toshi

/-- Configuration record mirroring the fields of `Settings` that
`src/bin/toshi.rs` reads: role flag `master`, bind host/port, data path,
log level, the consul (registry) address, cluster name, placement-bind
address, clustering flag and the auto-commit interval. -/
structure Settings where
  log_level : String
  path : String
  host : String
  port : Nat
  master : Bool
  enable_clustering : Bool
  auto_commit_duration : Nat
  place_addr : String
  consul_addr : String
  cluster_name : String
deriving Repr, DecidableEq

/-- Oracle for the outcomes of the external calls the binary makes:
whether `IndexCatalog::new` succeeds, whether `Consul::builder().build()`
succeeds, whether `register_cluster` succeeds, what
`cluster::init_node_id` resolves to (`none` = it failed), and whether
`register_node` succeeds. -/
structure Env where
  catalogNewOk : Bool
  consulBuildOk : Bool
  registerClusterOk : Bool
  initNodeIdResult : Option String
  registerNodeOk : Bool
deriving Repr, DecidableEq

/-- Observable events of the orchestrator, in program order. -/
inductive Event where
  | createDir
  | catalogErr
  | exitProcess (code : Nat)
  | printHeader
  | printRpcHeader
  | commitWatcherStart
  | buildConsulClient (cluster addr : String)
  | registerCluster
  | initNodeIdCall
  | setNodeId (id : String)
  | registerNode
  | logError
  | spawnPlacement
  | routerServe (addr : String)
  | rpcServe (addr : String)
  | logSignal (s : String)
  | logShutdown
  | signalSend
  | acquireWriteLock
  | clearCatalog
  | runtimeShutdown
  | panicUnreachable
deriving Repr, DecidableEq

/-- Resolution of a futures-0.1 future: `Ok(())`, `Err(())`, still
running (a server that serves indefinitely), or a Rust panic. -/
inductive FOutcome where
  | ok
  | err
  | pending
  | panicked (msg : String)
deriving Repr, DecidableEq

/-- The bind address string `format!("{}:{}", host, port)`. -/
def bindAddr (s : Settings) : String :=
  s.host ++ ":" ++ toString s.port

/-- Modelled from the spec: `cluster::init_node_id` is code of this
repository that is not under src/ (only its caller is).  Per the spec it
resolves the node identity from the storage path: "read the persisted
identifier from the storage path if present, otherwise generate and
persist a new one".  The state is the identity file's contents (`none`
when absent); the result is the resolved id and the file afterwards. -/
def init_node_id (idFile : Option String) (fresh : String) : String × Option String :=
  match idFile with
  | some id => (id, some id)
  | none => (fresh, some fresh)

/-- Embedding of `connect_to_consul` (toshi.rs:191-213): build a Consul
client for the configured cluster name and registry address
(`expect` ⇒ panic on failure), then
`register_cluster().and_then(init_node_id).and_then(set_node_id; register_node)`,
finally `map_err(|e| error!(..))` — which logs and yields `Err(())`. -/
def connect_to_consul (env : Env) (s : Settings) : List Event × FOutcome :=
  if env.consulBuildOk then
    let t1 := [Event.buildConsulClient s.cluster_name s.consul_addr, Event.registerCluster]
    if env.registerClusterOk then
      match env.initNodeIdResult with
      | some id =>
        let t2 := t1 ++ [Event.initNodeIdCall, Event.setNodeId id, Event.registerNode]
        if env.registerNodeOk then (t2, FOutcome.ok)
        else (t2 ++ [Event.logError], FOutcome.err)
      | none => (t1 ++ [Event.initNodeIdCall, Event.logError], FOutcome.err)
    else (t1 ++ [Event.logError], FOutcome.err)
  else
    ([Event.buildConsulClient s.cluster_name s.consul_addr],
      FOutcome.panicked "Could not build Consul client.")

/-- Events of the commit-watcher future (toshi.rs:148-156): when
`auto_commit_duration > 0` it is `lazy(|| { commit_watcher.start(); ok })`,
otherwise the trivial `ok(())` future with no effect. -/
def commitWatcherEvents (s : Settings) : List Event :=
  if 0 < s.auto_commit_duration then [Event.commitWatcherStart] else []

/-- All four external registration steps of `connect_to_consul`
succeeded. -/
def clusterPathOk (env : Env) : Bool :=
  env.consulBuildOk && env.registerClusterOk && env.initNodeIdResult.isSome
    && env.registerNodeOk

/-- Embedding of `run` (toshi.rs:147-189), the coordinator path.  The
`HEADER` banner prints eagerly.  With clustering enabled the future is
`lazy(connect_to_consul).and_then(|_| { spawn(commit_watcher);
build Consul client; spawn placement; router })`: the continuation runs
only when the handshake resolved `Ok`.  With clustering disabled it is
`commit_watcher.and_then(router)`.  A serving router is `pending`. -/
def run (env : Env) (s : Settings) : List Event × FOutcome :=
  if s.enable_clustering then
    let c := connect_to_consul env s
    match c.2 with
    | FOutcome.ok =>
      (Event.printHeader :: c.1 ++ commitWatcherEvents s ++
        [Event.buildConsulClient s.cluster_name s.consul_addr,
          Event.spawnPlacement, Event.routerServe (bindAddr s)],
        FOutcome.pending)
    | o => (Event.printHeader :: c.1, o)
  else
    (Event.printHeader :: (commitWatcherEvents s ++ [Event.routerServe (bindAddr s)]),
      FOutcome.pending)

/-- The spawned server task of `main` (toshi.rs:50-62): the coordinator
runs `run`, a data node prints the RPC banner and binds the RPC
listener. -/
def serverTask (env : Env) (s : Settings) : List Event × FOutcome :=
  if s.master then run env s
  else ([Event.printRpcHeader, Event.rpcServe (bindAddr s)], FOutcome.pending)

/-- Embedding of `handle_shutdown` (toshi.rs:230-246) applied to the
stream of arriving termination requests: `take(1).into_future()` consumes
at most the first request, logs it when there is one, logs the
graceful-shutdown line, and sends on the oneshot exactly once. -/
def handle_shutdown (sigs : List String) : List Event :=
  (match sigs.head? with
    | some sg => [Event.logSignal sg]
    | none => []) ++ [Event.logShutdown, Event.signalSend]

/-- Which side of `server.select(shutdown)` resolves first. -/
inductive RaceWinner where
  | primaryDone
  | signalFirst
deriving Repr, DecidableEq

/-- How the process ends: a regular exit with a status code, or a Rust
panic (whose process status is neither 0 nor 1). -/
inductive ExitKind where
  | exited (code : Nat)
  | panicked (msg : String)
deriving Repr, DecidableEq

/-- Embedding of the bootstrap directory step (toshi.rs:32-35):
`if !Path::new(&settings.path).exists() { create_dir(..) }`.  The
filesystem is the list of existing paths; the result is the filesystem
afterwards and the events performed. -/
def ensure_data_path (fs : List String) (p : String) : List String × List Event :=
  if p ∈ fs then (fs, []) else (p :: fs, [Event.createDir])

/-- Main-thread behaviour after the race resolves (toshi.rs:64-77).  If
the spawned task finishes first its `SelectNext` — holding the oneshot
`Sender` — is dropped without sending, the `Receiver` resolves
`Err(Canceled)` and `map_err(|_| unreachable!(..))` panics.  If the
shutdown future wins it sends once; the receiver chain then takes the
catalog write lock, calls `clear()` and halts the runtime, and `main`
returns `Ok(())`. -/
def mainShutdownPhase (winner : RaceWinner) (sigs : List String) : List Event × ExitKind :=
  match winner with
  | RaceWinner.primaryDone =>
    ([Event.panicUnreachable],
      ExitKind.panicked "Shutdown signal channel should not error, This is a bug.")
  | RaceWinner.signalFirst =>
    (handle_shutdown sigs ++
      [Event.acquireWriteLock, Event.clearCatalog, Event.runtimeShutdown],
      ExitKind.exited 0)

/-- Main-thread trace and exit of `main` (toshi.rs:21-77): bootstrap the
data directory; construct the catalog — on failure print the error and
`std::process::exit(1)` at once; otherwise spawn the server/shutdown race
and wait on the oneshot receiver. -/
def toshiMain (env : Env) (s : Settings) (fs : List String) (winner : RaceWinner)
    (sigs : List String) : List Event × ExitKind :=
  let dirT := (ensure_data_path fs s.path).2
  if env.catalogNewOk then
    let ph := mainShutdownPhase winner sigs
    (dirT ++ ph.1, ph.2)
  else
    (dirT ++ [Event.catalogErr, Event.exitProcess 1], ExitKind.exited 1)

/-- Command-line option values as clap sees them: `none` when the user
did not pass the option (toshi.rs:79-139). -/
structure CliArgs where
  config : Option String
  level : Option String
  data_path : Option String
  host : Option String
  port : Option String
  consul_addr : Option String
  cluster_name : Option String
  enable_clustering : Option String
deriving Repr, DecidableEq

/-- clap's `value_of`: the user-supplied value, falling back to the
option's `default_value` when one was declared. -/
def valueOf (user dflt : Option String) : Option String :=
  match user with
  | some v => some v
  | none => dflt

/-- Where the `Settings` the process runs with come from:
`Settings::new(config_file)` or `Settings::from_args(&options)`. -/
inductive SettingsSource where
  | fromFile (configPath : String)
  | fromArgs (a : CliArgs)
deriving Repr, DecidableEq

/-- Embedding of the `settings()` dispatch (toshi.rs:141-144): `match
options.value_of("config") { Some(v) => Settings::new(v), None =>
Settings::from_args(&options) }`, where the `config` option carries
`default_value("config/config.toml")`. -/
def settingsSource (a : CliArgs) : SettingsSource :=
  match valueOf a.config (some "config/config.toml") with
  | some v => SettingsSource.fromFile v
  | none => SettingsSource.fromArgs a

/-- The event is a router launch. -/
def isRouterServe : Event → Bool
  | Event.routerServe _ => true
  | _ => false

/-- The event is an RPC-listener launch. -/
def isRpcServe : Event → Bool
  | Event.rpcServe _ => true
  | _ => false

/-- The event launches a primary task (router or RPC listener). -/
def isPrimaryLaunch (e : Event) : Bool :=
  isRouterServe e || isRpcServe e

/-- The event is the placement-engine spawn. -/
def isSpawnPlacement : Event → Bool
  | Event.spawnPlacement => true
  | _ => false

/-- The event is the commit-watcher start. -/
def isCommitStart : Event → Bool
  | Event.commitWatcherStart => true
  | _ => false

/-- The event contacts or prepares contact with the registry (any part
of a registration attempt). -/
def isConsulContact : Event → Bool
  | Event.buildConsulClient _ _ => true
  | Event.registerCluster => true
  | Event.initNodeIdCall => true
  | Event.setNodeId _ => true
  | Event.registerNode => true
  | _ => false

/-- The event is one of the four handshake steps of
`connect_to_consul`. -/
def isHandshakeStep : Event → Bool
  | Event.buildConsulClient _ _ => true
  | Event.registerCluster => true
  | Event.initNodeIdCall => true
  | Event.setNodeId _ => true
  | Event.registerNode => true
  | _ => false

/-- The event is the oneshot send. -/
def isSend : Event → Bool
  | Event.signalSend => true
  | _ => false

/-- The event is the exclusive catalog-lock acquisition. -/
def isAcquire : Event → Bool
  | Event.acquireWriteLock => true
  | _ => false

/-- The event is the `clear()` call. -/
def isClear : Event → Bool
  | Event.clearCatalog => true
  | _ => false

/-- Number of events of a trace satisfying `p`. -/
def countE (p : Event → Bool) (t : List Event) : Nat :=
  (t.filter p).length

/-- The handshake steps `connect_to_consul` performs, as gated by the
oracle: each later step appears only when every earlier step
succeeded. -/
def handshakeSteps (env : Env) (s : Settings) : List Event :=
  Event.buildConsulClient s.cluster_name s.consul_addr ::
    (if env.consulBuildOk then
      Event.registerCluster ::
        (if env.registerClusterOk then
          Event.initNodeIdCall ::
            (match env.initNodeIdResult with
              | some id => [Event.setNodeId id, Event.registerNode]
              | none => [])
          else [])
      else [])

/-- Coordinator settings with clustering enabled and a nonzero
auto-commit interval, matching Scenario C of the spec. -/
def sCluster : Settings :=
  { log_level := "info", path := "data/", host := "0.0.0.0", port := 8080
    master := true, enable_clustering := true, auto_commit_duration := 5
    place_addr := "0.0.0.0:7000", consul_addr := "127.0.0.1:8500"
    cluster_name := "kitsune" }

/-- Coordinator settings with clustering disabled and auto-commit
disabled, matching Scenario A of the spec. -/
def sPlain : Settings :=
  { sCluster with enable_clustering := false, auto_commit_duration := 0 }

/-- Oracle on which every external call succeeds. -/
def envAllOk : Env :=
  { catalogNewOk := true, consulBuildOk := true, registerClusterOk := true
    initNodeIdResult := some "node-1", registerNodeOk := true }

/-- Oracle on which `register_cluster` — handshake step 2 — fails and
everything else would succeed. -/
def envRegClusterFails : Env :=
  { envAllOk with registerClusterOk := false }

/-- Claim C1 (code_bug): with clustering enabled, when `register_cluster`
fails the error is logged and the chain abandoned, but — contrary to the
claim — the router is never launched: `connect_to_consul`'s
`map_err(|e| error!(..))` leaves the future an `Err`, so the `and_then`
continuation holding the router is skipped, the `run` future resolves
`Err`, the spawned task completes, the oneshot sender is dropped and the
main thread panics at the `unreachable!` that asserts the shutdown
channel cannot error. -/
theorem c1_handshake_failure_no_router_and_panic :
    (run envRegClusterFails sCluster).2 = FOutcome.err
      ∧ Event.logError ∈ (run envRegClusterFails sCluster).1
      ∧ countE isRouterServe (run envRegClusterFails sCluster).1 = 0
      ∧ countE isSpawnPlacement (run envRegClusterFails sCluster).1 = 0
      ∧ (toshiMain envRegClusterFails sCluster ["data/"] RaceWinner.primaryDone []).2
          = ExitKind.panicked "Shutdown signal channel should not error, This is a bug."
      ∧ countE isClear
          (toshiMain envRegClusterFails sCluster ["data/"] RaceWinner.primaryDone []).1 = 0 := by
  refine ⟨rfl, ?_, rfl, rfl, rfl, rfl⟩
  decide

/-- Claim C2 (code_bug): only the termination-request winner of the
shutdown race performs the ordered cleanup (send, exclusive lock,
`clear()`, runtime halt, exit 0).  When the primary task ends first, the
oneshot sender is dropped without a send, the receiver resolves
`Err(Canceled)` and the main thread panics at the `unreachable!` — no
lock, no `clear()`, no runtime halt — contrary to the claim that both
winners lead to ordered cleanup before halting. -/
theorem c2_primary_winner_skips_cleanup :
    (mainShutdownPhase RaceWinner.signalFirst ["SIGINT"]).1
        = [Event.logSignal "SIGINT", Event.logShutdown, Event.signalSend,
            Event.acquireWriteLock, Event.clearCatalog, Event.runtimeShutdown]
      ∧ (mainShutdownPhase RaceWinner.signalFirst ["SIGINT"]).2 = ExitKind.exited 0
      ∧ (mainShutdownPhase RaceWinner.primaryDone []).2
          = ExitKind.panicked "Shutdown signal channel should not error, This is a bug."
      ∧ countE isClear (mainShutdownPhase RaceWinner.primaryDone []).1 = 0
      ∧ countE isAcquire (mainShutdownPhase RaceWinner.primaryDone []).1 = 0 := by
  exact ⟨rfl, rfl, rfl, rfl, rfl⟩

/-- Explicit command line for C10: every option given an explicit value
except `--config`, which is absent. -/
def argsExplicit : CliArgs :=
  { config := none, level := some "debug", data_path := some "/var/toshi"
    host := some "127.0.0.1", port := some "9999"
    consul_addr := some "10.0.0.1:8500", cluster_name := some "prod"
    enable_clustering := some "true" }

/-- The source is `Settings::from_args`. -/
def isFromArgs : SettingsSource → Bool
  | SettingsSource.fromArgs _ => true
  | _ => false

/-- Claim C10 (code_bug): because the `config` option carries
`default_value("config/config.toml")`, clap's `value_of("config")` is
always `Some`, so the `None => Settings::from_args(..)` arm is dead: for
every command line the process's settings come from a config file, and
explicit `--port`/`--host`/… values never reach `Settings`.  At the
concrete command line with every option explicit but no `--config`, the
settings still come from the default config file. -/
theorem c10_from_args_unreachable :
    settingsSource argsExplicit = SettingsSource.fromFile "config/config.toml"
      ∧ (∀ a : CliArgs, isFromArgs (settingsSource a) = false) := by
  refine ⟨rfl, ?_⟩
  intro a
  cases h : a.config <;> simp [settingsSource, valueOf, h, isFromArgs]

/-- Claim C3 (confirmed): with the catalog constructed and two
termination requests delivered at once, `take(1)` consumes at most one
request and exactly one value is sent through the oneshot; the receiver
chain then performs exactly one exclusive catalog acquisition and exactly
one `clear()` across the process lifetime. -/
theorem c3_two_signals_one_cleanup (s1 s2 : String) (env : Env) (s : Settings)
    (fs : List String) (h : env.catalogNewOk = true) :
    countE isSend (toshiMain env s fs RaceWinner.signalFirst [s1, s2]).1 = 1
      ∧ countE isAcquire (toshiMain env s fs RaceWinner.signalFirst [s1, s2]).1 = 1
      ∧ countE isClear (toshiMain env s fs RaceWinner.signalFirst [s1, s2]).1 = 1 := by
  have hdir : ∀ p : Event → Bool, p Event.createDir = false →
      (ensure_data_path fs s.path).2.filter p = [] := by
    intro p hp
    by_cases hm : s.path ∈ fs <;> simp [ensure_data_path, hm, hp]
  refine ⟨?_, ?_, ?_⟩ <;>
    simp [toshiMain, h, mainShutdownPhase, handle_shutdown, countE, List.filter_append,
      hdir, isSend, isAcquire, isClear]

/-- Claim C3 witness: the two-signal scenario at a concrete
configuration. -/
theorem c3_two_signals_one_cleanup_witness :
    countE isSend
        (toshiMain envAllOk sPlain ["data/"] RaceWinner.signalFirst ["SIGINT", "SIGTERM"]).1 = 1
      ∧ countE isAcquire
          (toshiMain envAllOk sPlain ["data/"] RaceWinner.signalFirst ["SIGINT", "SIGTERM"]).1 = 1
      ∧ countE isClear
          (toshiMain envAllOk sPlain ["data/"] RaceWinner.signalFirst ["SIGINT", "SIGTERM"]).1 = 1 :=
  c3_two_signals_one_cleanup "SIGINT" "SIGTERM" envAllOk sPlain ["data/"] rfl

/-- Claim C4 (confirmed): the process exit status is 0 exactly when the
graceful cleanup chain ran (`clear()` appears in the main-thread trace),
it is 1 exactly when `IndexCatalog::new` failed, and on that failure the
exit is immediate (`exit(1)` is the last event) with no catalog-lock
acquisition and no `clear()`. -/
theorem c4_exit_status (env : Env) (s : Settings) (fs : List String)
    (winner : RaceWinner) (sigs : List String) :
    ((toshiMain env s fs winner sigs).2 = ExitKind.exited 0
        ↔ Event.clearCatalog ∈ (toshiMain env s fs winner sigs).1)
      ∧ ((toshiMain env s fs winner sigs).2 = ExitKind.exited 1
          ↔ env.catalogNewOk = false)
      ∧ (Event.exitProcess 1 ∈ (toshiMain env s fs winner sigs).1
          ↔ env.catalogNewOk = false)
      ∧ (env.catalogNewOk = false →
          countE isClear (toshiMain env s fs winner sigs).1 = 0
            ∧ countE isAcquire (toshiMain env s fs winner sigs).1 = 0
            ∧ (toshiMain env s fs winner sigs).1.getLast? = some (Event.exitProcess 1)) := by
  cases hc : env.catalogNewOk <;> cases winner <;> by_cases hm : s.path ∈ fs <;>
    cases sigs <;>
    simp [toshiMain, mainShutdownPhase, handle_shutdown, ensure_data_path, hm, hc,
      countE, isClear, isAcquire]

/-- Claim C8 (confirmed): the handshake performs its steps strictly in
program order, each step present in the trace exactly when every earlier
step succeeded — the filtered trace is precisely the gated step list —
and the handshake resolves `Ok` exactly when all four steps succeeded.
`init_node_id` (modelled from the spec) persists exactly the identity it
resolves, returns an existing identifier unchanged, and is idempotent
across restarts on the same storage path. -/
theorem c8_handshake_order (env : Env) (s : Settings) :
    (connect_to_consul env s).1.filter isHandshakeStep = handshakeSteps env s
      ∧ ((connect_to_consul env s).2 = FOutcome.ok ↔ clusterPathOk env = true)
      ∧ (∀ idFile fresh, (init_node_id idFile fresh).2 = some (init_node_id idFile fresh).1)
      ∧ (∀ id fresh, init_node_id (some id) fresh = (id, some id))
      ∧ (∀ idFile f g, init_node_id (init_node_id idFile f).2 g
          = ((init_node_id idFile f).1, (init_node_id idFile f).2)) := by
  obtain ⟨cat, cb, rc, ini, rn⟩ := env
  refine ⟨?_, ?_, ?_, ?_, ?_⟩
  · cases cb <;> cases rc <;> cases ini <;> cases rn <;>
      simp [connect_to_consul, handshakeSteps, isHandshakeStep]
  · cases cb <;> cases rc <;> cases ini <;> cases rn <;>
      simp [connect_to_consul, clusterPathOk]
  · intro idFile fresh
    cases idFile <;> simp [init_node_id]
  · intro id fresh
    rfl
  · intro idFile f g
    cases idFile <;> simp [init_node_id]

/-- Claim C9 (confirmed): after the bootstrap directory step the
configured path exists; nothing that existed before is removed and
nothing but the path itself is added; and the creation call happens
exactly when the path was absent. -/
theorem c9_bootstrap_dir (fs : List String) (p : String) :
    p ∈ (ensure_data_path fs p).1
      ∧ (∀ q, q ∈ (ensure_data_path fs p).1 ↔ (q ∈ fs ∨ q = p))
      ∧ (Event.createDir ∈ (ensure_data_path fs p).2 ↔ p ∉ fs) := by
  by_cases hm : p ∈ fs
  · refine ⟨by simp [ensure_data_path, hm], ?_, by simp [ensure_data_path, hm]⟩
    intro q
    simp only [ensure_data_path, hm, if_pos]
    constructor
    · intro hq
      exact Or.inl hq
    · rintro (hq | rfl)
      · exact hq
      · exact hm
  · refine ⟨by simp [ensure_data_path, hm], ?_, by simp [ensure_data_path, hm]⟩
    intro q
    simp [ensure_data_path, hm, List.mem_cons, or_comm]

/-- Claim C5 counterexample: on the coordinator-with-clustering path with
`register_cluster` failing, the node is a coordinator with clustering
enabled and yet neither the placement engine nor any primary task is
constructed — refuting "placement engine iff coordinator and clustering
enabled" and "exactly one primary task". -/
theorem c5_counterexample :
    sCluster.master = true ∧ sCluster.enable_clustering = true
      ∧ countE isSpawnPlacement (serverTask envRegClusterFails sCluster).1 = 0
      ∧ countE isPrimaryLaunch (serverTask envRegClusterFails sCluster).1 = 0 :=
  ⟨rfl, rfl, rfl, rfl⟩

/-- Claim C5 (corrected): provided that on the coordinator-with-clustering
path the consul client builds and the four handshake steps succeed,
exactly one primary task is constructed — the router iff coordinator, the
RPC listener iff data node — the placement engine is spawned iff
coordinator and clustering enabled, and a data node makes no registration
attempt. -/
theorem c5_role_matrix (env : Env) (s : Settings)
    (h : s.master = true → s.enable_clustering = true → clusterPathOk env = true) :
    countE isRouterServe (serverTask env s).1 = (if s.master then 1 else 0)
      ∧ countE isRpcServe (serverTask env s).1 = (if s.master then 0 else 1)
      ∧ countE isPrimaryLaunch (serverTask env s).1 = 1
      ∧ countE isSpawnPlacement (serverTask env s).1
          = (if s.master && s.enable_clustering then 1 else 0)
      ∧ (s.master = false → countE isConsulContact (serverTask env s).1 = 0) := by
  obtain ⟨cat, cb, rc, ini, rn⟩ := env
  cases hm : s.master
  · refine ⟨?_, ?_, ?_, ?_, ?_⟩ <;>
      simp [serverTask, hm, countE, isRouterServe, isRpcServe, isPrimaryLaunch,
        isSpawnPlacement, isConsulContact]
  · cases hc : s.enable_clustering
    · by_cases hd : 0 < s.auto_commit_duration <;>
        refine ⟨?_, ?_, ?_, ?_, ?_⟩ <;>
        simp [serverTask, run, hm, hc, hd, commitWatcherEvents, countE, isRouterServe,
          isRpcServe, isPrimaryLaunch, isSpawnPlacement]
    · have hco := h hm hc
      simp only [clusterPathOk, Bool.and_eq_true, Option.isSome_iff_exists] at hco
      obtain ⟨⟨⟨hcb, hrc⟩, id, hini⟩, hrn⟩ := hco
      subst hcb
      subst hrc
      subst hrn
      subst hini
      by_cases hd : 0 < s.auto_commit_duration <;>
        refine ⟨?_, ?_, ?_, ?_, ?_⟩ <;>
        simp [serverTask, run, connect_to_consul, hm, hc, hd, commitWatcherEvents,
          countE, isRouterServe, isRpcServe, isPrimaryLaunch, isSpawnPlacement]

/-- Claim C5 witness: the role matrix at a concrete coordinator with
clustering enabled and every handshake step succeeding. -/
theorem c5_role_matrix_witness :
    countE isRouterServe (serverTask envAllOk sCluster).1 = (if sCluster.master then 1 else 0)
      ∧ countE isRpcServe (serverTask envAllOk sCluster).1 = (if sCluster.master then 0 else 1)
      ∧ countE isPrimaryLaunch (serverTask envAllOk sCluster).1 = 1
      ∧ countE isSpawnPlacement (serverTask envAllOk sCluster).1
          = (if sCluster.master && sCluster.enable_clustering then 1 else 0)
      ∧ (sCluster.master = false → countE isConsulContact (serverTask envAllOk sCluster).1 = 0) :=
  c5_role_matrix envAllOk sCluster (fun _ _ => rfl)

/-- Claim C6 counterexample: a coordinator with clustering enabled and a
positive auto-commit interval whose `register_cluster` call fails never
creates the commit scheduler — refuting "interval greater than 0 implies
exactly one commit scheduler task is created". -/
theorem c6_counterexample :
    sCluster.auto_commit_duration = 5 ∧ sCluster.master = true
      ∧ countE isCommitStart (serverTask envRegClusterFails sCluster).1 = 0 :=
  ⟨rfl, rfl, rfl⟩

/-- Claim C6 (corrected): on the coordinator path — provided clustering
is disabled or the handshake succeeds — a zero auto-commit interval
creates no commit scheduler, and a positive interval creates exactly one,
started strictly before the router begins serving: the trace restricted
to commit-scheduler and router events is `[commitWatcherStart,
routerServe]` (or just `[routerServe]` at interval 0). -/
theorem c6_commit_scheduler (env : Env) (s : Settings) (h1 : s.master = true)
    (h2 : s.enable_clustering = true → clusterPathOk env = true) :
    (serverTask env s).1.filter (fun e => isCommitStart e || isRouterServe e)
      = (if 0 < s.auto_commit_duration then [Event.commitWatcherStart] else [])
        ++ [Event.routerServe (bindAddr s)] := by
  obtain ⟨cat, cb, rc, ini, rn⟩ := env
  cases hc : s.enable_clustering
  · by_cases hd : 0 < s.auto_commit_duration <;>
      simp [serverTask, run, h1, hc, hd, commitWatcherEvents, isCommitStart, isRouterServe]
  · have hco := h2 hc
    simp only [clusterPathOk, Bool.and_eq_true, Option.isSome_iff_exists] at hco
    obtain ⟨⟨⟨hcb, hrc⟩, id, hini⟩, hrn⟩ := hco
    subst hcb
    subst hrc
    subst hrn
    subst hini
    by_cases hd : 0 < s.auto_commit_duration <;>
      simp [serverTask, run, connect_to_consul, h1, hc, hd, commitWatcherEvents,
        isCommitStart, isRouterServe]

/-- Claim C6 witness: the commit scheduler starts before the router at a
concrete coordinator configuration with a positive interval. -/
theorem c6_commit_scheduler_witness :
    (serverTask envAllOk sCluster).1.filter (fun e => isCommitStart e || isRouterServe e)
      = (if 0 < sCluster.auto_commit_duration then [Event.commitWatcherStart] else [])
        ++ [Event.routerServe (bindAddr sCluster)] :=
  c6_commit_scheduler envAllOk sCluster rfl (fun _ => rfl)

/-- Claim C7 counterexample: when the handshake is abandoned
(`register_cluster` fails), neither the placement engine nor the router
is ever launched — refuting "the handshake runs to completion
successfully or by abandonment ... afterwards the router and placement
engine run concurrently". -/
theorem c7_counterexample :
    (connect_to_consul envRegClusterFails sCluster).2 = FOutcome.err
      ∧ countE isSpawnPlacement (serverTask envRegClusterFails sCluster).1 = 0
      ∧ countE isRouterServe (serverTask envRegClusterFails sCluster).1 = 0 :=
  ⟨rfl, rfl, rfl⟩

/-- Claim C7 (corrected): on the coordinator clustering path every
handshake step strictly precedes any placement-engine spawn and any
router launch; when the handshake succeeds, the placement engine is
spawned and then the router is launched — the spawned placement task and
the continuing router future running concurrently from that point — and
when it is abandoned neither is launched: the trace restricted to
handshake, placement and router events is the gated handshake steps
followed, exactly on success, by the placement spawn and the router
launch. -/
theorem c7_handshake_before_placement (env : Env) (s : Settings)
    (h1 : s.master = true) (h2 : s.enable_clustering = true) :
    (serverTask env s).1.filter
        (fun e => isHandshakeStep e || isSpawnPlacement e || isRouterServe e)
      = handshakeSteps env s
        ++ (if clusterPathOk env then
              [Event.buildConsulClient s.cluster_name s.consul_addr,
                Event.spawnPlacement, Event.routerServe (bindAddr s)]
            else []) := by
  obtain ⟨cat, cb, rc, ini, rn⟩ := env
  by_cases hd : 0 < s.auto_commit_duration <;>
    cases cb <;> cases rc <;> cases ini <;> cases rn <;>
    simp [serverTask, run, connect_to_consul, handshakeSteps, clusterPathOk, h1, h2, hd,
      commitWatcherEvents, isHandshakeStep, isSpawnPlacement, isRouterServe, isCommitStart]

/-- Claim C7 witness: handshake before placement and router at a concrete
coordinator clustering configuration with a successful handshake. -/
theorem c7_handshake_before_placement_witness :
    (serverTask envAllOk sCluster).1.filter
        (fun e => isHandshakeStep e || isSpawnPlacement e || isRouterServe e)
      = handshakeSteps envAllOk sCluster
        ++ (if clusterPathOk envAllOk then
              [Event.buildConsulClient sCluster.cluster_name sCluster.consul_addr,
                Event.spawnPlacement, Event.routerServe (bindAddr sCluster)]
            else []) :=
  c7_handshake_before_placement envAllOk sCluster rfl rfl

end Toshi
